import Mathlib

/-!
Shallow embedding of the Backend-Gera server (`src/server.js`, the current
Postgres variant at the top of the file).  Tables become lists of records,
the two in-memory `Map`s of verification codes become association lists,
the uploads directory becomes a list of stored file paths, and each route
handler becomes a pure function from its request data and the server state
to a JSON response together with the successor state.  Times are
milliseconds since the epoch, as produced by `Date.now()`.
-/

namespace Gera

/-- A row of the `usuarios` table. -/
structure User where
  id : Nat
  nome : String
  email : String
  senha : String
  idade : Int
  isAdmin : Bool
  verificado : Bool
  deriving Repr, DecidableEq

/-- A row of the `noticias` table. -/
structure Noticia where
  id : Nat
  titulo : String
  resumo : String
  corpo : String
  categoria : String
  imagem : Option String
  deriving Repr, DecidableEq

/-- A row of the `anuncios` table (the advertiser-lead records). -/
structure Lead where
  id : Nat
  nome : String
  empresa : String
  email : String
  telefone : String
  tipo : String
  mensagem : String
  imagem : Option String
  status : String
  deriving Repr, DecidableEq

/-- An entry of the in-memory code registries (`verificationCodes` and
`passwordResetCodes`): `{ code, expiresAt }` with `expiresAt` in
milliseconds. -/
structure CodeEntry where
  code : String
  expiresAt : Nat
  deriving Repr, DecidableEq

/-- A JS `Map.get`: the value at the first (and, for a `Map`, only) entry
with the given key. -/
def mapGet {α : Type} : List (String × α) → String → Option α
  | [], _ => none
  | (k, v) :: rest, key => if k = key then some v else mapGet rest key

/-- A JS `Map.delete`: removes the entry with the given key.  A `Map` holds
at most one entry per key, so dropping every pair with that key agrees with
it on all reachable states. -/
def mapErase {α : Type} (m : List (String × α)) (key : String) : List (String × α) :=
  m.filter (fun p => p.1 ≠ key)

/-- A JS `Map.set`: binds the key to the value, overwriting any prior
entry. -/
def mapSet {α : Type} (m : List (String × α)) (key : String) (v : α) : List (String × α) :=
  (key, v) :: mapErase m key

/-- The whole mutable state of the process: the three tables, the two code
registries, the uploads directory, and the serial-id counters. -/
structure ServerState where
  users : List User
  news : List Noticia
  leads : List Lead
  verificationCodes : List (String × CodeEntry)
  passwordResetCodes : List (String × CodeEntry)
  files : List String
  nextUserId : Nat
  nextNewsId : Nat
  nextLeadId : Nat
  deriving Repr, DecidableEq

def emptyState : ServerState :=
  { users := [], news := [], leads := [], verificationCodes := [],
    passwordResetCodes := [], files := [], nextUserId := 1, nextNewsId := 1,
    nextLeadId := 1 }

/-- A JSON response: the HTTP status plus the optional fields the handlers
write.  A field left at its default models a key absent from the JSON
object that the route sends. -/
structure Response where
  status : Nat := 200
  success : Bool := false
  error : Option String := none
  token : Option String := none
  isAdmin : Option Bool := none
  userId : Option Nat := none
  simulatedCode : Option String := none
  totalUsuarios : Option Nat := none
  totalNoticias : Option Nat := none
  totalAnuncios : Option Nat := none
  deriving Repr, DecidableEq

/-- JS truthiness of a request-body string field (`undefined` and the empty
string are falsy). -/
def jsTruthy : Option String → Bool
  | none => false
  | some s => s != ""

/-- JS truthiness of the `age` body field after JSON decoding: absent is
falsy, the number 0 is falsy.  `none` also stands for a value on which
`parseInt` yields `NaN`. -/
def ageTruthy : Option Int → Bool
  | none => false
  | some n => n != 0

/-- `String.prototype.toLowerCase`, character by character (the emails in
play are ASCII). -/
def jsToLower (s : String) : String := String.mk (s.data.map Char.toLower)

/-- A whitespace character, as trimmed by `String.prototype.trim`. -/
def isWhite (c : Char) : Bool := c = ' ' || c = '\t' || c = '\n' || c = '\r'

/-- `String.prototype.trim`: drop whitespace from both ends. -/
def jsTrim (s : String) : String :=
  String.mk (((s.data.dropWhile isWhite).reverse.dropWhile isWhite).reverse)

/-- Body of `POST /api/register`. -/
structure RegisterBody where
  name : Option String
  email : Option String
  age : Option Int
  password : Option String
  deriving Repr, DecidableEq

/-- `POST /api/register`: requires all fields, checks `parseInt(age)` is in
[13,120], lowercases and trims the email, and inserts the user with the
raw password and the table defaults `is_admin = false`,
`verificado = false`; a duplicate of the normalized email makes the insert
fail with Postgres error 23505, translated to a 400. -/
def register (b : RegisterBody) (s : ServerState) : Response × ServerState :=
  if !(jsTruthy b.name && jsTruthy b.email && ageTruthy b.age && jsTruthy b.password) then
    ({ status := 400, error := some "Todos os campos são obrigatórios." }, s)
  else
    match b.age with
    | none =>
      ({ status := 400, error := some "Idade inválida. Deve estar entre 13 e 120 anos." }, s)
    | some idade =>
      if idade < 13 || idade > 120 then
        ({ status := 400, error := some "Idade inválida. Deve estar entre 13 e 120 anos." }, s)
      else
        let nome := jsTrim (b.name.getD "")
        let email := jsTrim (jsToLower (b.email.getD ""))
        if s.users.any (fun u => u.email == email) then
          ({ status := 400, error := some "E-mail já cadastrado." }, s)
        else
          ({ status := 200, success := true, userId := some s.nextUserId },
           { s with
             users := s.users ++ [{ id := s.nextUserId, nome := nome, email := email,
                                    senha := b.password.getD "", idade := idade,
                                    isAdmin := false, verificado := false }],
             nextUserId := s.nextUserId + 1 })

/-- `POST /api/login`: one SQL lookup
`WHERE email = $1 AND senha = $2 AND verificado = true` on the raw body
values; a hit answers `{ success, token, isAdmin }`, a miss answers a
single combined 401. -/
def login (email password : String) (s : ServerState) : Response :=
  match s.users.find? (fun u => u.email == email && u.senha == password && u.verificado) with
  | some u =>
    { status := 200, success := true, token := some "fake-token", isAdmin := some u.isAdmin }
  | none => { status := 401, error := some "Credenciais inválidas ou e-mail não verificado." }

/-- `POST /api/send-verification-code`: 404 when no user has the supplied
email (compared verbatim); otherwise stores `(code, now + 10 min)` under
the raw email and attempts delivery.  `code` stands for the value of
`generateCode()`, `transporterConfigured` for a non-null `transporter`,
`sendOk` for `sendMail` not throwing.  Without a transporter the code is
only logged on the server and the response is a bare `{ success: true }`. -/
def sendVerificationCode (email code : String) (now : Nat)
    (transporterConfigured sendOk : Bool) (s : ServerState) : Response × ServerState :=
  if !(s.users.any (fun u => u.email == email)) then
    ({ status := 404, error := some "E-mail não cadastrado." }, s)
  else
    let entry : CodeEntry := { code := code, expiresAt := now + 10 * 60 * 1000 }
    let s1 := { s with verificationCodes := mapSet s.verificationCodes email entry }
    if transporterConfigured then
      if sendOk then ({ status := 200, success := true }, s1)
      else ({ status := 500, error := some "Falha ao enviar e-mail." }, s1)
    else
      ({ status := 200, success := true }, s1)

/-- `UPDATE usuarios SET verificado = true WHERE email = $1`. -/
def markVerified (email : String) (l : List User) : List User :=
  l.map (fun u => if u.email == email then { u with verificado := true } else u)

/-- `POST /api/verify-code`: 400 when no entry is stored under the raw
email, or the stored code differs from the supplied one, or `now` is past
`expiresAt`; on success flips `verificado` for the email and deletes the
entry. -/
def verifyCode (email code : String) (now : Nat) (s : ServerState) : Response × ServerState :=
  match mapGet s.verificationCodes email with
  | none => ({ status := 400, error := some "Código inválido ou expirado." }, s)
  | some stored =>
    if stored.code != code || now > stored.expiresAt then
      ({ status := 400, error := some "Código inválido ou expirado." }, s)
    else
      ({ status := 200, success := true },
       { s with users := markVerified email s.users,
                verificationCodes := mapErase s.verificationCodes email })

/-- `POST /api/send-password-reset`: same shape as
`sendVerificationCode`, on the `passwordResetCodes` registry. -/
def sendPasswordReset (email code : String) (now : Nat)
    (transporterConfigured sendOk : Bool) (s : ServerState) : Response × ServerState :=
  if !(s.users.any (fun u => u.email == email)) then
    ({ status := 404, error := some "E-mail não encontrado." }, s)
  else
    let entry : CodeEntry := { code := code, expiresAt := now + 10 * 60 * 1000 }
    let s1 := { s with passwordResetCodes := mapSet s.passwordResetCodes email entry }
    if transporterConfigured then
      if sendOk then ({ status := 200, success := true }, s1)
      else ({ status := 500, error := some "Falha ao enviar e-mail." }, s1)
    else
      ({ status := 200, success := true }, s1)

/-- `UPDATE usuarios SET senha = $1 WHERE email = $2`. -/
def setSenha (email newSenha : String) (l : List User) : List User :=
  l.map (fun u => if u.email == email then { u with senha := newSenha } else u)

/-- `POST /api/reset-password`: consume a reset code exactly like
`verifyCode`, then store `newPassword` as the user's `senha` verbatim. -/
def resetPassword (email code newPassword : String) (now : Nat)
    (s : ServerState) : Response × ServerState :=
  match mapGet s.passwordResetCodes email with
  | none => ({ status := 400, error := some "Código inválido ou expirado." }, s)
  | some stored =>
    if stored.code != code || now > stored.expiresAt then
      ({ status := 400, error := some "Código inválido ou expirado." }, s)
    else
      ({ status := 200, success := true },
       { s with users := setSenha email newPassword s.users,
                passwordResetCodes := mapErase s.passwordResetCodes email })

/-- The first-run bootstrap in `initDB`: when no `admin@admin.com` row
exists, insert the administrator with the literal password `admin123`,
`is_admin = true` and `verificado = true`. -/
def initDB (s : ServerState) : ServerState :=
  if s.users.any (fun u => u.email == "admin@admin.com") then s
  else
    { s with
      users := s.users ++ [{ id := s.nextUserId, nome := "Administrador",
                             email := "admin@admin.com", senha := "admin123",
                             idade := 30, isAdmin := true, verificado := true }],
      nextUserId := s.nextUserId + 1 }

/-- The authorization-relevant part of an incoming request: the
`Authorization` header, when present. -/
structure Request where
  authHeader : Option String
  deriving Repr, DecidableEq

/-- `const authAdmin = (req, res, next) => next();` — the middleware on the
admin routes.  `some r` would be an early response; the middleware never
produces one, whatever the request carries. -/
def authAdmin (_req : Request) : Option Response := none

/-- `GET /api/admin-dashboard`: runs `authAdmin`, then counts the users,
the articles, and the leads with `status = 'ativo'`. -/
def adminDashboard (req : Request) (s : ServerState) : Response :=
  match authAdmin req with
  | some r => r
  | none =>
    { status := 200,
      totalUsuarios := some s.users.length,
      totalNoticias := some s.news.length,
      totalAnuncios := some (s.leads.filter (fun a => a.status == "ativo")).length }

/-- `__dirname` of the server process; image references are joined onto it
before the filesystem is touched. -/
def serverDir : String := "/srv/backend"

/-- `path.join(__dirname, ref)`. -/
def joinPath (ref : String) : String := serverDir ++ ref

/-- The data of a `DELETE /api/delete-anuncio/:id` request: the bearer
header, the `:id` route parameter and the `senha` body field. -/
structure DeleteLeadReq where
  authHeader : Option String
  id : Nat
  senha : Option String
  deriving Repr, DecidableEq

/-- `DELETE /api/delete-anuncio/:id`: after the no-op `authAdmin`, a 401
unless the body field `senha` is exactly `admin123`; then a 404 when no
lead has the id; otherwise the referenced image file is unlinked when it
exists on disk (`fs.existsSync` guard) and the row is deleted. -/
def deleteLead (req : DeleteLeadReq) (s : ServerState) : Response × ServerState :=
  match authAdmin { authHeader := req.authHeader } with
  | some r => (r, s)
  | none =>
    if req.senha != some "admin123" then
      ({ status := 401, error := some "Senha incorreta" }, s)
    else
      match s.leads.find? (fun a => a.id == req.id) with
      | none => ({ status := 404, error := some "Anúncio não encontrado" }, s)
      | some a =>
        let files1 :=
          match a.imagem with
          | some ref =>
            if joinPath ref ∈ s.files then s.files.erase (joinPath ref) else s.files
          | none => s.files
        ({ status := 200, success := true },
         { s with leads := s.leads.filter (fun a2 => !(a2.id == req.id)), files := files1 })

/-! ### Helper lemmas about the map model -/

theorem mapGet_mapErase {α : Type} (m : List (String × α)) (k : String) :
    mapGet (mapErase m k) k = none := by
  induction m with
  | nil => rfl
  | cons p rest ih =>
    by_cases h : p.1 = k
    · simpa [mapErase, h] using ih
    · simpa [mapErase, mapGet, h] using ih

theorem mapGet_mapSet_self {α : Type} (m : List (String × α)) (k : String) (v : α) :
    mapGet (mapSet m k v) k = some v := by
  simp [mapSet, mapGet]

theorem find?_eq_some_of_unique {α : Type} (l : List α) (p : α → Bool) (a : α)
    (ha : a ∈ l) (hpa : p a = true) (huniq : ∀ x ∈ l, p x = true → x = a) :
    l.find? p = some a := by
  induction l with
  | nil => cases ha
  | cons b rest ih =>
    by_cases hb : p b = true
    · have hba : b = a := huniq b (List.mem_cons_self b rest) hb
      rw [List.find?_cons_of_pos _ hb, hba]
    · have hab : a ∈ rest := by
        rcases List.mem_cons.mp ha with h | h
        · exact absurd (h ▸ hpa) hb
        · exact h
      have huniq2 : ∀ x ∈ rest, p x = true → x = a :=
        fun x hx hpx => huniq x (List.mem_cons_of_mem b hx) hpx
      rw [List.find?_cons_of_neg _ hb]
      exact ih hab huniq2

/-! ### Claim theorems -/

/-- Claim C1 (code bug): the admin gate `authAdmin` forwards every request
unchecked, so an admin-only operation such as the dashboard runs and
answers 200 with the stats even when no Authorization bearer header is
supplied at all — nothing ever fails Unauthenticated or Forbidden. -/
theorem c1_adminGateBypassed :
    (∀ req : Request, authAdmin req = none) ∧
    (∀ (hdr : Option String) (s : ServerState),
      (adminDashboard { authHeader := hdr } s).status = 200 ∧
      (adminDashboard { authHeader := hdr } s).totalUsuarios = some s.users.length ∧
      (adminDashboard { authHeader := hdr } s).error = none) := by
  refine ⟨fun _ => rfl, fun hdr s => ?_⟩
  simp [adminDashboard, authAdmin]

/-- Claim C2 (code bug): registration stores the raw password verbatim as
the user's `senha`, login succeeds by plain string comparison with that
raw password, the bootstrap admin is stored with the literal password
`admin123`, and reset-password stores the new raw password verbatim — no
one-way salted hashing anywhere. -/
theorem c2_plaintextSecret :
    (register { name := some "A", email := some "a@x.com", age := some 30,
                password := some "pw" } emptyState).2.users =
      [{ id := 1, nome := "A", email := "a@x.com", senha := "pw", idade := 30,
         isAdmin := false, verificado := false }] ∧
    login "a@x.com" "pw"
        { emptyState with
          users := [{ id := 1, nome := "A", email := "a@x.com", senha := "pw",
                      idade := 30, isAdmin := false, verificado := true }] } =
      { status := 200, success := true, token := some "fake-token",
        isAdmin := some false } ∧
    (initDB emptyState).users =
      [{ id := 1, nome := "Administrador", email := "admin@admin.com", senha := "admin123",
         idade := 30, isAdmin := true, verificado := true }] ∧
    (resetPassword "a@x.com" "111111" "np" 0
        { emptyState with
          users := [{ id := 1, nome := "A", email := "a@x.com", senha := "pw",
                      idade := 30, isAdmin := false, verificado := true }],
          passwordResetCodes := [("a@x.com", { code := "111111", expiresAt := 5 })] }).2.users =
      [{ id := 1, nome := "A", email := "a@x.com", senha := "np", idade := 30,
         isAdmin := false, verificado := true }] := by
  refine ⟨?_, ?_, ?_, ?_⟩ <;> decide

/-- Claim C9: register rejects every age outside the inclusive range
[13,120] (and every absent or non-numeric age) with HTTP 400 and leaves
the whole state untouched; when the other fields are present the rejection
carries the invalid-age error. -/
theorem c9_ageValidation (b : RegisterBody) (s : ServerState)
    (hout : ∀ n : Int, b.age = some n → n < 13 ∨ 120 < n) :
    ((register b s).1.status = 400 ∧ (register b s).2 = s) ∧
    (∀ n : Int, b.age = some n → n ≠ 0 → jsTruthy b.name = true →
      jsTruthy b.email = true → jsTruthy b.password = true →
      (register b s).1.error = some "Idade inválida. Deve estar entre 13 e 120 anos.") := by
  constructor
  · unfold register
    split
    · exact ⟨rfl, rfl⟩
    · cases hage : b.age with
      | none => exact ⟨rfl, rfl⟩
      | some n =>
        rcases hout n hage with h | h <;> exact ⟨by simp [h], by simp [h]⟩
  · intro n hage hn hname hemail hpw
    unfold register
    rw [if_neg (by simp [hname, hemail, hpw, ageTruthy, hage, hn])]
    rw [hage]
    rcases hout n hage with h | h <;> simp [h]

/-- Witness for `c9_ageValidation` at age 12 on the empty state. -/
theorem c9_ageValidation_witness :
    (register { name := some "A", email := some "a@x.com", age := some 12,
                password := some "pw" } emptyState).1.status = 400 ∧
    (register { name := some "A", email := some "a@x.com", age := some 12,
                password := some "pw" } emptyState).2 = emptyState ∧
    (register { name := some "A", email := some "a@x.com", age := some 12,
                password := some "pw" } emptyState).1.error =
      some "Idade inválida. Deve estar entre 13 e 120 anos." := by
  have h := c9_ageValidation
    { name := some "A", email := some "a@x.com", age := some 12, password := some "pw" }
    emptyState (by intro n hn; simp at hn; omega)
  exact ⟨h.1.1, h.1.2, h.2 12 rfl (by decide) (by decide) (by decide) (by decide)⟩

/-- Claim C10: the only effective guard on lead deletion is the `senha`
body field: any value other than the literal `admin123` draws a 401 with
the records and the file store untouched, and the outcome never depends on
the Authorization header. -/
theorem c10_fixedPasswordGuard (req : DeleteLeadReq) (s : ServerState)
    (h : req.senha ≠ some "admin123") :
    deleteLead req s = ({ status := 401, error := some "Senha incorreta" }, s) ∧
    ∀ hdr : Option String, deleteLead { req with authHeader := hdr } s = deleteLead req s := by
  constructor
  · unfold deleteLead authAdmin
    simp only []
    rw [if_pos (by simp [h])]
  · intro hdr
    rfl

/-- Witness for `c10_fixedPasswordGuard` on a state that holds a lead and
its image file: the wrong password draws a 401 and changes nothing. -/
theorem c10_fixedPasswordGuard_witness :
    deleteLead { authHeader := some "Bearer tk", id := 1, senha := some "wrong" }
        { emptyState with
          leads := [{ id := 1, nome := "N", empresa := "E", email := "e@x.com",
                      telefone := "1", tipo := "t", mensagem := "m",
                      imagem := some "/uploads/a.png", status := "pendente" }],
          files := [joinPath "/uploads/a.png"] } =
      ({ status := 401, error := some "Senha incorreta" },
       { emptyState with
         leads := [{ id := 1, nome := "N", empresa := "E", email := "e@x.com",
                     telefone := "1", tipo := "t", mensagem := "m",
                     imagem := some "/uploads/a.png", status := "pendente" }],
         files := [joinPath "/uploads/a.png"] }) :=
  (c10_fixedPasswordGuard
    { authHeader := some "Bearer tk", id := 1, senha := some "wrong" }
    { emptyState with
      leads := [{ id := 1, nome := "N", empresa := "E", email := "e@x.com",
                  telefone := "1", tipo := "t", mensagem := "m",
                  imagem := some "/uploads/a.png", status := "pendente" }],
      files := [joinPath "/uploads/a.png"] } (by decide)).1

/-- Claim C4: a verify-code call fails 400 exactly when no entry is stored
for the email, or the stored code differs from the supplied one, or the
current time is past the entry's expiry; on success the entry is deleted,
so with no intervening issue the same code is never accepted twice. -/
theorem c4_consumeSemantics (s : ServerState) (email code : String) (now : Nat) :
    ((verifyCode email code now s).1.status = 400 ↔
      ∀ e, mapGet s.verificationCodes email = some e → e.code ≠ code ∨ e.expiresAt < now) ∧
    (∀ e, mapGet s.verificationCodes email = some e → e.code = code → now ≤ e.expiresAt →
      (verifyCode email code now s).1.success = true ∧
      mapGet (verifyCode email code now s).2.verificationCodes email = none ∧
      ∀ code2 now2,
        (verifyCode email code2 now2 (verifyCode email code now s).2).1.status = 400) := by
  rcases hm : mapGet s.verificationCodes email with _ | e
  · constructor
    · constructor
      · intro _ e he
        cases he
      · intro _
        simp [verifyCode, hm]
    · intro e he
      cases he
  · constructor
    · by_cases hc : e.code = code
      · by_cases ht : now ≤ e.expiresAt
        · apply iff_of_false
          · have hne : ¬ (e.expiresAt < now) := by omega
            simp [verifyCode, hm, hc, hne]
          · intro hall
            rcases hall e rfl with h | h
            · exact h hc
            · omega
        · apply iff_of_true
          · have hlt : e.expiresAt < now := by omega
            simp [verifyCode, hm, hlt]
          · intro e2 he2
            cases he2
            right
            omega
      · apply iff_of_true
        · simp [verifyCode, hm, hc]
        · intro e2 he2
          cases he2
          exact Or.inl hc
    · intro e2 he2 hc2 ht2
      cases he2
      have hne : ¬ (e.expiresAt < now) := by omega
      refine ⟨?_, ?_, ?_⟩
      · simp [verifyCode, hm, hc2, hne]
      · simp [verifyCode, hm, hc2, hne, mapGet_mapErase]
      · intro code2 now2
        simp [verifyCode, hm, hc2, hne, mapGet_mapErase]

/-- Witness for `c4_consumeSemantics`: on a registry holding a valid code,
the first consume succeeds and the immediate second consume of the very
same code fails 400. -/
theorem c4_consumeSemantics_witness :
    (verifyCode "a@x.com" "111111" 10
        { emptyState with
          verificationCodes := [("a@x.com", { code := "111111", expiresAt := 100 })] }).1.success
      = true ∧
    (verifyCode "a@x.com" "111111" 10
        (verifyCode "a@x.com" "111111" 10
          { emptyState with
            verificationCodes :=
              [("a@x.com", { code := "111111", expiresAt := 100 })] }).2).1.status = 400 := by
  have h := (c4_consumeSemantics
    { emptyState with
      verificationCodes := [("a@x.com", { code := "111111", expiresAt := 100 })] }
    "a@x.com" "111111" 10).2 { code := "111111", expiresAt := 100 } rfl rfl (by decide)
  exact ⟨h.1, h.2.2 "111111" 10⟩

/-- Claim C3, counterexample: a login with the correct password on an
unverified account answers the very same 401 response as a login on a
state where the user does not exist at all — the NotVerified failure is
not distinguishable from InvalidCredentials. -/
theorem c3_counterexample :
    login "a@x.com" "pw"
        { emptyState with
          users := [{ id := 1, nome := "A", email := "a@x.com", senha := "pw",
                      idade := 30, isAdmin := false, verificado := false }] } =
      login "a@x.com" "pw" emptyState ∧
    (login "a@x.com" "pw" emptyState).status = 401 := by
  exact ⟨by decide, by decide⟩

/-- Claim C3 as amended: with a correct password on an unverified account,
login fails with the single combined 401 response (identical to the
invalid-credentials response); after the account is verified through a
valid verify-code call, the same credentials log in successfully and the
reported `isAdmin` comes from the persisted record. -/
theorem c3_loginAfterVerify (s : ServerState) (e pw c : String) (now : Nat)
    (u : User) (entry : CodeEntry)
    (hu : u ∈ s.users) (huniq : ∀ v ∈ s.users, v.email = e → v = u)
    (hemail : u.email = e) (hpw : u.senha = pw) (hver : u.verificado = false)
    (hentry : mapGet s.verificationCodes e = some entry)
    (hc : entry.code = c) (ht : now ≤ entry.expiresAt) :
    login e pw s =
      { status := 401, error := some "Credenciais inválidas ou e-mail não verificado." } ∧
    (verifyCode e c now s).1.success = true ∧
    login e pw (verifyCode e c now s).2 =
      { status := 200, success := true, token := some "fake-token",
        isAdmin := some u.isAdmin } := by
  have hne : ¬ (entry.expiresAt < now) := by omega
  have hresp : (verifyCode e c now s).1.success = true := by
    simp [verifyCode, hentry, hc, hne]
  have hstate : (verifyCode e c now s).2 =
      { s with users := markVerified e s.users,
               verificationCodes := mapErase s.verificationCodes e } := by
    simp [verifyCode, hentry, hc, hne]
  refine ⟨?_, hresp, ?_⟩
  · unfold login
    have hnone : s.users.find?
        (fun v => v.email == e && v.senha == pw && v.verificado) = none := by
      apply List.find?_eq_none.mpr
      intro v hv hmatch
      simp only [Bool.and_eq_true, beq_iff_eq] at hmatch
      have hve : v = u := huniq v hv hmatch.1.1
      rw [hve, hver] at hmatch
      exact Bool.false_ne_true hmatch.2
    rw [hnone]
  · rw [hstate]
    unfold login
    have hfind : (markVerified e s.users).find?
        (fun v => v.email == e && v.senha == pw && v.verificado) =
        some { u with verificado := true } := by
      apply find?_eq_some_of_unique
      · exact List.mem_map.mpr ⟨u, hu, by simp [hemail]⟩
      · simp [hemail, hpw]
      · intro x hx hpx
        rcases List.mem_map.mp hx with ⟨v, hv, hxv⟩
        simp only [Bool.and_eq_true, beq_iff_eq] at hpx
        by_cases hv2 : v.email == e
        · rw [if_pos hv2] at hxv
          have : v = u := huniq v hv (by simpa using hv2)
          rw [← hxv, this]
        · rw [if_neg hv2] at hxv
          rw [← hxv] at hpx
          exact absurd (by simp [hpx.1.1]) hv2
    rw [hfind]

/-- Witness for `c3_loginAfterVerify` on a one-user state holding a valid
signup code. -/
theorem c3_loginAfterVerify_witness :
    login "a@x.com" "pw"
        { emptyState with
          users := [{ id := 1, nome := "A", email := "a@x.com", senha := "pw",
                      idade := 30, isAdmin := false, verificado := false }],
          verificationCodes := [("a@x.com", { code := "111111", expiresAt := 100 })] } =
      { status := 401, error := some "Credenciais inválidas ou e-mail não verificado." } ∧
    login "a@x.com" "pw"
        (verifyCode "a@x.com" "111111" 10
          { emptyState with
            users := [{ id := 1, nome := "A", email := "a@x.com", senha := "pw",
                        idade := 30, isAdmin := false, verificado := false }],
            verificationCodes :=
              [("a@x.com", { code := "111111", expiresAt := 100 })] }).2 =
      { status := 200, success := true, token := some "fake-token",
        isAdmin := some false } := by
  have h := c3_loginAfterVerify
    { emptyState with
      users := [{ id := 1, nome := "A", email := "a@x.com", senha := "pw",
                  idade := 30, isAdmin := false, verificado := false }],
      verificationCodes := [("a@x.com", { code := "111111", expiresAt := 100 })] }
    "a@x.com" "pw" "111111" 10
    { id := 1, nome := "A", email := "a@x.com", senha := "pw", idade := 30,
      isAdmin := false, verificado := false }
    { code := "111111", expiresAt := 100 }
    (by decide) (by decide) rfl rfl rfl rfl rfl (by decide)
  exact ⟨h.1, h.2.2⟩

/-- Shape of the state after a successful registration: exactly one user
row is appended, carrying the trimmed name, the lowercased trimmed email,
the raw password, and the table defaults. -/
theorem register_success_state (b : RegisterBody) (s : ServerState)
    (hok : (register b s).1.success = true) :
    ∃ n : Int, b.age = some n ∧
      (register b s).2 = { s with
        users := s.users ++ [{ id := s.nextUserId, nome := jsTrim (b.name.getD ""),
                               email := jsTrim (jsToLower (b.email.getD "")),
                               senha := b.password.getD "", idade := n,
                               isAdmin := false, verificado := false }],
        nextUserId := s.nextUserId + 1 } := by
  have hx : (jsTruthy b.name && jsTruthy b.email && ageTruthy b.age &&
      jsTruthy b.password) = true := by
    cases hxx : (jsTruthy b.name && jsTruthy b.email && ageTruthy b.age &&
        jsTruthy b.password) with
    | true => rfl
    | false => simp [register, hxx] at hok
  obtain ⟨h1, h2, h3, h4⟩ :
      jsTruthy b.name = true ∧ jsTruthy b.email = true ∧
      ageTruthy b.age = true ∧ jsTruthy b.password = true := by
    simpa [Bool.and_eq_true, and_assoc] using hx
  cases hage : b.age with
  | none =>
    rw [hage] at h3
    simp [ageTruthy] at h3
  | some n =>
    have h3s : ageTruthy (some n) = true := by rw [← hage]; exact h3
    by_cases h13 : n < 13
    · simp [register, h1, h2, h3s, h4, hage, h13] at hok
    · by_cases h120 : n > 120
      · simp [register, h1, h2, h3s, h4, hage, h13, h120] at hok
      · by_cases hdup :
            s.users.any (fun u => u.email == jsTrim (jsToLower (b.email.getD ""))) = true
        · simp [register, h1, h2, h3s, h4, hage, h13, h120, hdup] at hok
        · refine ⟨n, rfl, ?_⟩
          simp [register, h1, h2, h3s, h4, hage, h13, h120, hdup]

/-- Claim C5, counterexample: a fully valid registration on the empty
state succeeds, yet the verification-code registry of the resulting state
is still empty — Register issues no signup code at all. -/
theorem c5_counterexample :
    (register { name := some "A", email := some "a@x.com", age := some 30,
                password := some "pw" } emptyState).1.success = true ∧
    (register { name := some "A", email := some "a@x.com", age := some 30,
                password := some "pw" } emptyState).2.verificationCodes = [] := by
  exact ⟨by decide, by decide⟩

/-- Claim C5 as amended: a valid registration stores the user with
`verificado = false` and leaves the code registry untouched; a signup code
with expiry `now + 10 min` (strictly in the future) is created only by a
subsequent send-verification-code call for an existing email, which
succeeds even when delivery is simulated. -/
theorem c5_registerUnverifiedNoCode (b : RegisterBody) (s : ServerState)
    (e c : String) (now : Nat) (cfg ok : Bool)
    (hok : (register b s).1.success = true) :
    (∃ u, (register b s).2.users = s.users ++ [u] ∧ u.verificado = false ∧
       u.email = jsTrim (jsToLower (b.email.getD ""))) ∧
    (register b s).2.verificationCodes = s.verificationCodes ∧
    ((∃ u ∈ s.users, u.email = e) →
       mapGet (sendVerificationCode e c now cfg ok s).2.verificationCodes e =
         some { code := c, expiresAt := now + 10 * 60 * 1000 } ∧
       now < now + 10 * 60 * 1000 ∧
       (cfg = false → (sendVerificationCode e c now cfg ok s).1.success = true ∧
          (sendVerificationCode e c now cfg ok s).1.status = 200)) := by
  obtain ⟨n, hage, hstate⟩ := register_success_state b s hok
  refine ⟨⟨_, by rw [hstate], rfl, rfl⟩, by rw [hstate], ?_⟩
  rintro ⟨u, hu, hue⟩
  have hany : s.users.any (fun v => v.email == e) = true :=
    List.any_eq_true.mpr ⟨u, hu, by simp [hue]⟩
  refine ⟨?_, by omega, ?_⟩
  · cases cfg <;> cases ok <;> simp [sendVerificationCode, hany, mapGet_mapSet_self]
  · intro hcfg
    subst hcfg
    simp [sendVerificationCode, hany]

/-- Witness for `c5_registerUnverifiedNoCode`: registering a second user
issues no code, and a send-verification-code call for the first user in
simulated mode stores a future-dated code and succeeds. -/
theorem c5_registerUnverifiedNoCode_witness :
    (register { name := some "A", email := some "a@x.com", age := some 30,
                password := some "pw" }
        { emptyState with
          users := [{ id := 1, nome := "B", email := "b@y.com", senha := "q",
                      idade := 20, isAdmin := false, verificado := false }],
          nextUserId := 2 }).2.verificationCodes = [] ∧
    mapGet (sendVerificationCode "b@y.com" "222222" 50 false false
        { emptyState with
          users := [{ id := 1, nome := "B", email := "b@y.com", senha := "q",
                      idade := 20, isAdmin := false, verificado := false }],
          nextUserId := 2 }).2.verificationCodes "b@y.com" =
      some { code := "222222", expiresAt := 50 + 10 * 60 * 1000 } ∧
    (sendVerificationCode "b@y.com" "222222" 50 false false
        { emptyState with
          users := [{ id := 1, nome := "B", email := "b@y.com", senha := "q",
                      idade := 20, isAdmin := false, verificado := false }],
          nextUserId := 2 }).1.success = true := by
  have h := c5_registerUnverifiedNoCode
    { name := some "A", email := some "a@x.com", age := some 30, password := some "pw" }
    { emptyState with
      users := [{ id := 1, nome := "B", email := "b@y.com", senha := "q",
                  idade := 20, isAdmin := false, verificado := false }],
      nextUserId := 2 }
    "b@y.com" "222222" 50 false false (by decide)
  have h3 := h.2.2 ⟨{ id := 1, nome := "B", email := "b@y.com", senha := "q",
                      idade := 20, isAdmin := false, verificado := false },
                    by decide, rfl⟩
  exact ⟨h.2.1, h3.1, (h3.2.2 rfl).1⟩

/-- Claim C6, counterexample: an account registered with the email
`A@X.COM` is stored under `a@x.com`, and a subsequent
send-verification-code call supplied with the very same spelling
`A@X.COM` fails 404 — the lookup does not normalize case, so the account
is not addressed. -/
theorem c6_counterexample :
    (sendVerificationCode "A@X.COM" "111111" 0 false false
        (register { name := some "A", email := some "A@X.COM", age := some 30,
                    password := some "pw" } emptyState).2).1.status = 404 ∧
    (sendVerificationCode "a@x.com" "111111" 0 false false
        (register { name := some "A", email := some "A@X.COM", age := some 30,
                    password := some "pw" } emptyState).2).1.status = 200 := by
  exact ⟨by decide, by decide⟩

/-- Claim C6 as amended: Register lowercases and trims the email before
storing it, but the subsequent lookups compare the supplied email
verbatim — send-verification-code finds a user exactly when some stored
(already lowercased) email equals the supplied string, and login matches
the supplied email literally. -/
theorem c6_emailNormalizationOnlyAtRegister (b : RegisterBody) (s : ServerState)
    (e pw c : String) (now : Nat) (cfg ok : Bool)
    (hok : (register b s).1.success = true) :
    (∃ u, (register b s).2.users = s.users ++ [u] ∧
       u.email = jsTrim (jsToLower (b.email.getD ""))) ∧
    ((sendVerificationCode e c now cfg ok s).1.status = 404 ↔
       ∀ u ∈ s.users, u.email ≠ e) ∧
    ((login e pw s).status = 401 ↔
       ∀ u ∈ s.users, ¬ (u.email = e ∧ u.senha = pw ∧ u.verificado = true)) := by
  obtain ⟨n, hage, hstate⟩ := register_success_state b s hok
  refine ⟨⟨_, by rw [hstate], rfl⟩, ?_, ?_⟩
  · cases hany : s.users.any (fun v => v.email == e) with
    | false =>
      apply iff_of_true
      · simp [sendVerificationCode, hany]
      · intro u hu hue
        have : s.users.any (fun v => v.email == e) = true :=
          List.any_eq_true.mpr ⟨u, hu, by simp [hue]⟩
        rw [hany] at this
        cases this
    | true =>
      apply iff_of_false
      · cases cfg <;> cases ok <;> simp [sendVerificationCode, hany]
      · intro hall
        obtain ⟨u, hu, hue⟩ := List.any_eq_true.mp hany
        exact hall u hu (by simpa using hue)
  · cases hfind : s.users.find? (fun u => u.email == e && u.senha == pw && u.verificado) with
    | none =>
      apply iff_of_true
      · simp [login, hfind]
      · intro u hu hmatch
        have := List.find?_eq_none.mp hfind u hu
        simp only [Bool.and_eq_true, beq_iff_eq] at this
        exact this ⟨⟨hmatch.1, hmatch.2.1⟩, hmatch.2.2⟩
    | some u =>
      apply iff_of_false
      · simp [login, hfind]
      · intro hall
        have hmem := List.mem_of_find?_eq_some hfind
        have hp := List.find?_some hfind
        simp only [Bool.and_eq_true, beq_iff_eq] at hp
        exact hall u hmem ⟨hp.1.1, hp.1.2, hp.2⟩

/-- Witness for `c6_emailNormalizationOnlyAtRegister` on a one-user
state. -/
theorem c6_emailNormalizationOnlyAtRegister_witness :
    (∃ u : User,
      (register
        { name := some "A", email := some " A@X.COM ", age := some 30,
          password := some "pw" }
        { emptyState with
          users := [{ id := 1, nome := "B", email := "b@y.com", senha := "q",
                      idade := 20, isAdmin := false, verificado := true }],
          nextUserId := 2 }).2.users =
      [{ id := 1, nome := "B", email := "b@y.com", senha := "q",
         idade := 20, isAdmin := false, verificado := true }] ++ [u] ∧
      u.email = jsTrim (jsToLower " A@X.COM ")) ∧
    ((sendVerificationCode "B@Y.COM" "111111" 0 false false
        { emptyState with
          users := [{ id := 1, nome := "B", email := "b@y.com", senha := "q",
                      idade := 20, isAdmin := false, verificado := true }],
          nextUserId := 2 }).1.status = 404 ↔
      ∀ u ∈ ([{ id := 1, nome := "B", email := "b@y.com", senha := "q",
                idade := 20, isAdmin := false, verificado := true }] : List User),
        u.email ≠ "B@Y.COM") := by
  have h := c6_emailNormalizationOnlyAtRegister
    { name := some "A", email := some " A@X.COM ", age := some 30, password := some "pw" }
    { emptyState with
      users := [{ id := 1, nome := "B", email := "b@y.com", senha := "q",
                  idade := 20, isAdmin := false, verificado := true }],
      nextUserId := 2 }
    "B@Y.COM" "pw" "111111" 0 false false (by decide)
  exact ⟨h.1, h.2.1⟩

/-- Claim C7, counterexample: with no transporter configured, a
send-verification-code call for an existing user answers a bare
`{ success: true }` — the generated code is not reported back through a
`simulatedCode` field (it is only logged on the server). -/
theorem c7_counterexample :
    (sendVerificationCode "a@x.com" "123456" 0 false false
        { emptyState with
          users := [{ id := 1, nome := "A", email := "a@x.com", senha := "pw",
                      idade := 30, isAdmin := false, verificado := false }] }).1 =
      { status := 200, success := true } ∧
    (sendVerificationCode "a@x.com" "123456" 0 false false
        { emptyState with
          users := [{ id := 1, nome := "A", email := "a@x.com", senha := "pw",
                      idade := 30, isAdmin := false, verificado := false }] }).1.simulatedCode
      = none := by
  exact ⟨by decide, by decide⟩

/-- Claim C7 as amended: when no transporter is configured the
code-sending flows still complete with a 200 `{ success: true }` response,
but no response of register, send-verification-code or
send-password-reset ever carries a `simulatedCode` field, whether or not a
transport is configured. -/
theorem c7_noSimulatedSignal (b : RegisterBody) (e c : String) (now : Nat)
    (cfg ok : Bool) (s : ServerState) (hex : ∃ u ∈ s.users, u.email = e) :
    (sendVerificationCode e c now cfg ok s).1.simulatedCode = none ∧
    (sendPasswordReset e c now cfg ok s).1.simulatedCode = none ∧
    (register b s).1.simulatedCode = none ∧
    (cfg = false →
       (sendVerificationCode e c now cfg ok s).1.success = true ∧
       (sendVerificationCode e c now cfg ok s).1.status = 200 ∧
       (sendPasswordReset e c now cfg ok s).1.success = true ∧
       (sendPasswordReset e c now cfg ok s).1.status = 200) := by
  obtain ⟨u, hu, hue⟩ := hex
  have hany : s.users.any (fun v => v.email == e) = true :=
    List.any_eq_true.mpr ⟨u, hu, by simp [hue]⟩
  refine ⟨?_, ?_, ?_, ?_⟩
  · cases cfg <;> cases ok <;> simp [sendVerificationCode, hany]
  · cases cfg <;> cases ok <;> simp [sendPasswordReset, hany]
  · unfold register
    repeat' first | rfl | dsimp only | split
  · intro hcfg
    subst hcfg
    simp [sendVerificationCode, sendPasswordReset, hany]

/-- Witness for `c7_noSimulatedSignal` on a one-user state in simulated
mode. -/
theorem c7_noSimulatedSignal_witness :
    (sendVerificationCode "a@x.com" "123456" 7 false false
        { emptyState with
          users := [{ id := 1, nome := "A", email := "a@x.com", senha := "pw",
                      idade := 30, isAdmin := false, verificado := false }] }).1.simulatedCode
      = none ∧
    (sendPasswordReset "a@x.com" "123456" 7 false false
        { emptyState with
          users := [{ id := 1, nome := "A", email := "a@x.com", senha := "pw",
                      idade := 30, isAdmin := false, verificado := false }] }).1.success
      = true := by
  have h := c7_noSimulatedSignal
    { name := some "A", email := some "a@x.com", age := some 30, password := some "pw" }
    "a@x.com" "123456" 7 false false
    { emptyState with
      users := [{ id := 1, nome := "A", email := "a@x.com", senha := "pw",
                  idade := 30, isAdmin := false, verificado := false }] }
    ⟨{ id := 1, nome := "A", email := "a@x.com", senha := "pw",
       idade := 30, isAdmin := false, verificado := false }, by decide, rfl⟩
  exact ⟨h.1, (h.2.2.2 rfl).2.2.1⟩

/-- Claim C8: once the password guard is passed, deleting a lead by id
fails 404 with nothing changed when no lead has the id; otherwise the
call succeeds, the row is gone, a referenced image file is removed from
the file store, and a referenced file already absent from the store does
not block the deletion. -/
theorem c8_deleteLeadSemantics (req : DeleteLeadReq) (s : ServerState)
    (hpw : req.senha = some "admin123") (hnd : s.files.Nodup) :
    ((∀ l ∈ s.leads, l.id ≠ req.id) →
       deleteLead req s = ({ status := 404, error := some "Anúncio não encontrado" }, s)) ∧
    (∀ a, s.leads.find? (fun l => l.id == req.id) = some a →
       (deleteLead req s).1.success = true ∧ (deleteLead req s).1.status = 200 ∧
       (∀ l ∈ (deleteLead req s).2.leads, l.id ≠ req.id) ∧
       (∀ ref, a.imagem = some ref → joinPath ref ∉ (deleteLead req s).2.files) ∧
       (∀ ref, a.imagem = some ref → joinPath ref ∉ s.files →
          (deleteLead req s).2.files = s.files) ∧
       (a.imagem = none → (deleteLead req s).2.files = s.files)) := by
  have hguard : (req.senha != some "admin123") = false := by simp [hpw]
  constructor
  · intro habs
    have hnone : s.leads.find? (fun l => l.id == req.id) = none :=
      List.find?_eq_none.mpr (fun l hl => by simpa using habs l hl)
    simp [deleteLead, authAdmin, hguard, hnone]
  · intro a hfind
    rcases him : a.imagem with _ | ref
    · simp [deleteLead, authAdmin, hguard, hfind, him, List.mem_filter]
    · by_cases hcon : joinPath ref ∈ s.files
      · simp [deleteLead, authAdmin, hguard, hfind, him, hcon, List.mem_filter,
              hnd.not_mem_erase]
      · simp [deleteLead, authAdmin, hguard, hfind, him, hcon, List.mem_filter]

/-- Witness for `c8_deleteLeadSemantics`: deleting the only lead removes
its row and its image file. -/
theorem c8_deleteLeadSemantics_witness :
    (deleteLead { authHeader := none, id := 1, senha := some "admin123" }
        { emptyState with
          leads := [{ id := 1, nome := "N", empresa := "E", email := "e@x.com",
                      telefone := "1", tipo := "t", mensagem := "m",
                      imagem := some "/uploads/a.png", status := "pendente" }],
          files := [joinPath "/uploads/a.png"] }).1.success = true ∧
    joinPath "/uploads/a.png" ∉
      (deleteLead { authHeader := none, id := 1, senha := some "admin123" }
        { emptyState with
          leads := [{ id := 1, nome := "N", empresa := "E", email := "e@x.com",
                      telefone := "1", tipo := "t", mensagem := "m",
                      imagem := some "/uploads/a.png", status := "pendente" }],
          files := [joinPath "/uploads/a.png"] }).2.files := by
  have h := (c8_deleteLeadSemantics
    { authHeader := none, id := 1, senha := some "admin123" }
    { emptyState with
      leads := [{ id := 1, nome := "N", empresa := "E", email := "e@x.com",
                  telefone := "1", tipo := "t", mensagem := "m",
                  imagem := some "/uploads/a.png", status := "pendente" }],
      files := [joinPath "/uploads/a.png"] }
    rfl (by simp)).2
    { id := 1, nome := "N", empresa := "E", email := "e@x.com", telefone := "1",
      tipo := "t", mensagem := "m", imagem := some "/uploads/a.png", status := "pendente" }
    (by decide)
  exact ⟨h.1, h.2.2.2.1 "/uploads/a.png" rfl⟩

end Gera
